/-
Verification of the ant-colony simulation core (grid, pheromones, ants).

The Rust source works on `f32` screen coordinates and intensities.  We embed
those values as exact rationals (`ℚ`): every operation the verified code paths
use is one of `+ - * / min` and comparisons, so the rational semantics is the
ideal-arithmetic reading of the code.  Decimal literals from the source are
embedded as the rationals they denote; `f32::EPSILON` and the `f32` value of
`PI` are embedded exactly (the angle tests in the source depend on the exact
binary value of `PI`).

Hash maps (`Pheromones::entries`) are embedded as functions
`GridLocation → Option Pheromone`; hash sets (`food_cell_locs`) as functions
`GridLocation → Bool`.  The ant's random draws and its pheromone-sensing
target are passed in explicitly (`chosenDir`, `coin`): the claims under
verification quantify over every possible draw.  Rust panics (`expect`) are
embedded as `Option.none` results.
-/
import Mathlib

/-! ## Geometry (macroquad `Rect`, grid constants from grid.rs) -/

/-- Axis-aligned rectangle, the shape of macroquad's `Rect` (x, y, w, h). -/
structure RectQ where
  x : ℚ
  y : ℚ
  w : ℚ
  h : ℚ
deriving DecidableEq

/-- `Rect::center()`: the point `(x + w/2, y + h/2)`. -/
def RectQ.center (r : RectQ) : ℚ × ℚ := (r.x + r.w / 2, r.y + r.h / 2)

/-- `GRID_WIDTH` from grid.rs. -/
def GRID_WIDTH : ℕ := 200

/-- `GRID_HEIGHT` from grid.rs. -/
def GRID_HEIGHT : ℕ := 150

/-- `GridLocation` from grid.rs: a (row, column) pair. -/
structure GridLocation where
  r : ℕ
  c : ℕ
deriving DecidableEq

/-- `GridLocation::loc_from_coords` from grid.rs: converts a screen-space point
to a grid location, `None` when it falls outside the grid.  The Rust
`as usize` cast truncates the (here nonnegative) float, i.e. takes the floor. -/
def GridLocation.loc_from_coords (x y screen_width screen_height : ℚ) :
    Option GridLocation :=
  let r : ℚ := (y / screen_height) * (GRID_HEIGHT : ℚ)
  let c : ℚ := (x / screen_width) * (GRID_WIDTH : ℚ)
  if r < 0 ∨ (GRID_HEIGHT : ℚ) ≤ r ∨ c < 0 ∨ (GRID_WIDTH : ℚ) ≤ c then
    none
  else
    some ⟨(⌊r⌋).toNat, (⌊c⌋).toNat⟩

/-! ## Cell types (grid.rs) -/

/-- `CellType` from grid.rs. -/
inductive CellType where
  | Food : ℕ → CellType
  | Home : CellType
  | Terrain : CellType
  | Empty : CellType
deriving DecidableEq

/-- `FOOD_CONSUMPTION_LIMIT` from grid.rs. -/
def FOOD_CONSUMPTION_LIMIT : ℕ := 10

/-! ## Pheromones (pheromone.rs) -/

/-- `PheromoneType` from pheromone.rs. -/
inductive PheromoneType where
  | Food : PheromoneType
  | Home : PheromoneType
deriving DecidableEq

/-- `PHEROMONE_DECAY_RATE` (source literal `0.4`). -/
def PHEROMONE_DECAY_RATE : ℚ := 2 / 5

/-- `PHEROMONE_DETECTION_MINIMUM` (source literal `0.01`). -/
def PHEROMONE_DETECTION_MINIMUM : ℚ := 1 / 100

/-- `PHEROMONE_INTENSITY_MAX` (source literal `1000.`). -/
def PHEROMONE_INTENSITY_MAX : ℚ := 1000

/-- `SPECIAL_PHEROMONE_INTENSITY` (source literal `10000.`). -/
def SPECIAL_PHEROMONE_INTENSITY : ℚ := 10000

/-- `Pheromone` from pheromone.rs. -/
structure Pheromone where
  intensity : ℚ
  pheromone_type : PheromoneType
  rect : RectQ
  decayed : Bool
  locked_intensity : Bool
deriving DecidableEq

/-- `Pheromone::new` from pheromone.rs: `decayed` always starts `false`. -/
def Pheromone.new (intensity : ℚ) (pheromone_type : PheromoneType)
    (rect : RectQ) (locked_intensity : Bool) : Pheromone :=
  { intensity := intensity
    pheromone_type := pheromone_type
    rect := rect
    decayed := false
    locked_intensity := locked_intensity }

/-- `Pheromone::tick` from pheromone.rs: locked or already-decayed pheromones
are untouched; otherwise the intensity is multiplied by
`1 - dt * PHEROMONE_DECAY_RATE` and the pheromone is marked decayed when the
new intensity falls below the detection floor. -/
def Pheromone.tick (p : Pheromone) (dt : ℚ) : Pheromone :=
  if p.locked_intensity || p.decayed then p
  else
    let newIntensity := p.intensity * (1 - dt * PHEROMONE_DECAY_RATE)
    if newIntensity < PHEROMONE_DETECTION_MINIMUM then
      { p with intensity := newIntensity, decayed := true }
    else
      { p with intensity := newIntensity }

/-- `Pheromone::increase_intensity` from pheromone.rs: no-op on locked
pheromones, otherwise additive and capped at `PHEROMONE_INTENSITY_MAX`. -/
def Pheromone.increase_intensity (p : Pheromone) (additional_intensity : ℚ) :
    Pheromone :=
  if p.locked_intensity then p
  else { p with intensity := min (p.intensity + additional_intensity) PHEROMONE_INTENSITY_MAX }

/-- Iterated `Pheromone::tick` with a fixed `dt`. -/
def Pheromone.tickN (p : Pheromone) (dt : ℚ) : ℕ → Pheromone
  | 0 => p
  | n + 1 => (p.tickN dt n).tick dt

/-- `Pheromones::entries` from pheromone.rs: the `HashMap<GridLocation, Pheromone>`
of one scent field, embedded as a partial map. -/
abbrev Pheromones := GridLocation → Option Pheromone

/-- `Pheromones::tick` from pheromone.rs: every entry is ticked, and every
entry that is (then) decayed is removed.  The Rust code updates all entries in
place and then removes the collected decayed locations; per location that is
exactly the map below. -/
def Pheromones.tick (f : Pheromones) (dt : ℚ) : Pheromones := fun loc =>
  match f loc with
  | none => none
  | some p =>
    let p' := p.tick dt
    if p'.decayed then none else some p'

/-- Iterated `Pheromones::tick` with a fixed `dt`. -/
def Pheromones.tickIter (f : Pheromones) (dt : ℚ) : ℕ → Pheromones
  | 0 => f
  | n + 1 => Pheromones.tick (f.tickIter dt n) dt

/-! ## WorldGrid (grid.rs) -/

/-- `WorldGrid` from grid.rs.  The `Vec<[WorldCell; GRID_HEIGHT]>` cell table
is embedded as its cell-type content (the cached per-cell `rect` and `loc`
fields of `WorldCell` are derived data, recomputable from the location). -/
structure WorldGrid where
  grid : GridLocation → CellType
  food_pheromones : Pheromones
  home_pheromones : Pheromones
  food_cell_locs : GridLocation → Bool
  bounding_box : RectQ
  cell_width : ℚ
  cell_height : ℚ
  food_collected : ℕ

/-- The scent field of a given type, as selected in `deposit_pheromone` and
`pheromones()` in grid.rs. -/
def WorldGrid.phField (g : WorldGrid) : PheromoneType → Pheromones
  | PheromoneType.Food => g.food_pheromones
  | PheromoneType.Home => g.home_pheromones

/-- `WorldGrid::get_grid_location` from grid.rs. -/
def WorldGrid.get_grid_location (g : WorldGrid) (x y : ℚ) : Option GridLocation :=
  GridLocation.loc_from_coords x y g.bounding_box.w g.bounding_box.h

/-- `WorldGrid::get_rect_from_loc` from grid.rs. -/
def WorldGrid.get_rect_from_loc (g : WorldGrid) (loc : GridLocation) : RectQ :=
  let col_width := g.bounding_box.w / (GRID_WIDTH : ℚ)
  let row_height := g.bounding_box.h / (GRID_HEIGHT : ℚ)
  { x := (loc.c : ℚ) * col_width
    y := (loc.r : ℚ) * row_height
    w := g.cell_width
    h := g.cell_height }

/-- `WorldGrid::create_pheromone_for_loc` from grid.rs. -/
def WorldGrid.create_pheromone_for_loc (g : WorldGrid) (loc : GridLocation)
    (pheromone_type : PheromoneType) (intensity : ℚ) (locked_intensity : Bool) :
    Pheromone :=
  Pheromone.new intensity pheromone_type (g.get_rect_from_loc loc) locked_intensity

/-- The body of `WorldGrid::deposit_pheromone` (grid.rs lines 289-299) acting
on one scent field once the target location is resolved: a non-locked incoming
pheromone reinforces an existing entry (which silently ignores the addition if
the existing entry is locked); otherwise the incoming pheromone is inserted. -/
def Pheromones.deposit (entries : Pheromones) (loc : GridLocation) (p : Pheromone) :
    Pheromones :=
  if p.locked_intensity = false then
    match entries loc with
    | some existing_pheromone =>
      fun l => if l = loc then some (existing_pheromone.increase_intensity p.intensity) else entries l
    | none =>
      fun l => if l = loc then some p else entries l
  else
    fun l => if l = loc then some p else entries l

/-- `WorldGrid::deposit_pheromone` from grid.rs: resolves the pheromone's
footprint center to a location (`none` embeds the `expect` panic on failure)
and deposits into the matching field. -/
def WorldGrid.deposit_pheromone (g : WorldGrid) (p : Pheromone) : Option WorldGrid :=
  match g.get_grid_location p.rect.center.1 p.rect.center.2 with
  | none => none
  | some loc =>
    match p.pheromone_type with
    | PheromoneType.Food => some { g with food_pheromones := g.food_pheromones.deposit loc p }
    | PheromoneType.Home => some { g with home_pheromones := g.home_pheromones.deposit loc p }

/-- `AntActionTaken` from ant.rs. -/
inductive AntActionTaken where
  | PickedUpFood : AntActionTaken
  | DroppedOffFood : AntActionTaken
  | HitTerrain : AntActionTaken
deriving DecidableEq

/-- `WorldGrid::visit_cell` from grid.rs. -/
def WorldGrid.visit_cell (g : WorldGrid) (loc : GridLocation)
    (action : Option AntActionTaken) : WorldGrid :=
  match action with
  | none => g
  | some AntActionTaken.PickedUpFood =>
    match g.grid loc with
    | CellType.Food current_supply =>
      if 1 < current_supply then
        { g with grid := fun l => if l = loc then CellType.Food (current_supply - 1) else g.grid l }
      else
        { g with
          grid := fun l => if l = loc then CellType.Empty else g.grid l
          food_pheromones := fun l => if l = loc then none else g.food_pheromones l
          food_cell_locs := fun l => if l = loc then false else g.food_cell_locs l }
    | _ => g
  | some AntActionTaken.DroppedOffFood => { g with food_collected := g.food_collected + 1 }
  | some AntActionTaken.HitTerrain => g

/-- The `(dr, dc)` offsets iterated by `WorldGrid::spawn_cells`
(`-2..=2` in each direction, row-major as in the source). -/
def spawnOffsets : List (ℤ × ℤ) :=
  (List.range 5).flatMap fun i => (List.range 5).map fun j => ((i : ℤ) - 2, (j : ℤ) - 2)

/-- The location list built by `WorldGrid::spawn_cells`: the origin, followed
by every in-bounds neighbor in the 5×5 square (the origin thus appears twice,
as in the source). -/
def spawnLocs (origin : GridLocation) : List GridLocation :=
  origin :: spawnOffsets.filterMap fun drdc =>
    let r : ℤ := (origin.r : ℤ) + drdc.1
    let c : ℤ := (origin.c : ℤ) + drdc.2
    if r < 0 ∨ (GRID_HEIGHT : ℤ) ≤ r ∨ c < 0 ∨ (GRID_WIDTH : ℤ) ≤ c then none
    else some ⟨r.toNat, c.toNat⟩

/-- The per-location body of the `for loc in locs` loop of
`WorldGrid::spawn_cells`: clear both pheromone entries, overwrite the cell,
and when spawning food also track the location and seed a locked food
pheromone. -/
def WorldGrid.spawn_cell_at (cell_type : CellType) (g : WorldGrid)
    (loc : GridLocation) : WorldGrid :=
  let fp : Pheromones := fun l => if l = loc then none else g.food_pheromones l
  let hp : Pheromones := fun l => if l = loc then none else g.home_pheromones l
  let grid' := fun l => if l = loc then cell_type else g.grid l
  match cell_type with
  | CellType.Food _ =>
    { g with
      grid := grid'
      home_pheromones := hp
      food_cell_locs := fun l => if l = loc then true else g.food_cell_locs l
      food_pheromones := fun l =>
        if l = loc then
          some (Pheromone.new SPECIAL_PHEROMONE_INTENSITY PheromoneType.Food
            (g.get_rect_from_loc loc) true)
        else fp l }
  | _ => { g with grid := grid', food_pheromones := fp, home_pheromones := hp }

/-- `WorldGrid::spawn_cells` from grid.rs. -/
def WorldGrid.spawn_cells (g : WorldGrid) (x y : ℚ) (cell_type : CellType) :
    WorldGrid :=
  match g.get_grid_location x y with
  | none => g
  | some origin => (spawnLocs origin).foldl (WorldGrid.spawn_cell_at cell_type) g

/-- `WorldGrid::tick` from grid.rs: advance both scent fields. -/
def WorldGrid.tick (g : WorldGrid) (dt : ℚ) : WorldGrid :=
  { g with
    food_pheromones := g.food_pheromones.tick dt
    home_pheromones := g.home_pheromones.tick dt }

/-- `WorldGrid::new` from grid.rs: home cells are painted, the bounding box and
cell sizes are derived from the screen size, and a locked home pheromone is
deposited at every home location (via `deposit_pheromone`, whose `expect`
panic is embedded as `none`). -/
def WorldGrid.new (home_locations : List GridLocation) (screen_width screen_height : ℚ) :
    Option WorldGrid :=
  let g0 : WorldGrid :=
    { grid := fun l => if l ∈ home_locations then CellType.Home else CellType.Empty
      food_pheromones := fun _ => none
      home_pheromones := fun _ => none
      food_cell_locs := fun _ => false
      bounding_box := { x := 0, y := 0, w := screen_width, h := screen_height }
      cell_width := screen_width / (GRID_WIDTH : ℚ)
      cell_height := screen_height / (GRID_HEIGHT : ℚ)
      food_collected := 0 }
  home_locations.foldl
    (fun acc home_loc => acc.bind fun g =>
      g.deposit_pheromone
        (g.create_pheromone_for_loc home_loc PheromoneType.Home
          SPECIAL_PHEROMONE_INTENSITY true))
    (some g0)

/-! ## Ray cast (`WorldGrid::get_cells_in_direction`, grid.rs) -/

/-- `f32::EPSILON`, exactly `2⁻²³`. -/
def F32_EPSILON : ℚ := 1 / 8388608

/-- The `for _ in 1..steps` loop of `WorldGrid::get_cells_in_direction`:
the sample point advances by the angle vector (a unit vector — this is what
the source does, the computed `step` is only used for the iteration count),
each sample is converted to a cell, the walk stops at the world edge or at a
Terrain cell, and visited cells are accumulated as a set. -/
def rayLoop (g : WorldGrid) (angle_vec : ℚ × ℚ) :
    ℚ × ℚ → ℕ → Finset GridLocation → Finset GridLocation
  | _, 0, results => results
  | point, n + 1, results =>
    let point' := (point.1 + angle_vec.1, point.2 + angle_vec.2)
    match g.get_grid_location point'.1 point'.2 with
    | none => results
    | some loc =>
      if g.grid loc = CellType.Terrain then results
      else rayLoop g angle_vec point' n (insert loc results)

/-- `WorldGrid::get_cells_in_direction` from grid.rs.  The direction is passed
as its angle vector (`Vec2::from_angle(direction)`, a unit vector).  `none`
embeds the `expect` panic on an invalid origin.  The Rust `as u32` cast of the
step count saturates at 0 for negative values, i.e. `Int.toNat`. -/
def WorldGrid.get_cells_in_direction (g : WorldGrid) (origin : RectQ)
    (angle_vec : ℚ × ℚ) (ray_length : ℚ) : Option (Finset GridLocation) :=
  let point := origin.center
  match g.get_grid_location point.1 point.2 with
  | none => none
  | some current_loc =>
    let step := min g.cell_height g.cell_width / 2 - F32_EPSILON
    let steps := (⌈ray_length / step⌉).toNat
    some ((rayLoop g angle_vec point (steps - 1) ∅).erase current_loc)

/-! ## Angle normalization (util.rs) -/

/-- The `f32` value of `std::f32::consts::PI`, exactly `13176795 / 2²²`. -/
def PI32 : ℚ := 13176795 / 4194304

/-- The first `while` loop of `normalize_angle` (util.rs): add `2π` while the
angle is below `-π`. -/
def addTwoPi (θ : ℚ) : ℚ :=
  if θ < -PI32 then addTwoPi (θ + 2 * PI32) else θ
termination_by (⌈(-PI32 - θ) / (2 * PI32)⌉).toNat
decreasing_by
  have hpos : (0 : ℚ) < 2 * PI32 := by norm_num [PI32]
  have key : (-PI32 - (θ + 2 * PI32)) / (2 * PI32) = (-PI32 - θ) / (2 * PI32) - 1 := by
    field_simp
    ring
  have hnum : (0 : ℚ) < -PI32 - θ := by linarith
  have hq : (0 : ℚ) < (-PI32 - θ) / (2 * PI32) := div_pos hnum hpos
  have hceil : 0 < ⌈(-PI32 - θ) / (2 * PI32)⌉ := Int.ceil_pos.mpr hq
  rw [key, Int.ceil_sub_one]
  omega

/-- The second `while` loop of `normalize_angle` (util.rs): subtract `2π`
while the angle is above `π`. -/
def subTwoPi (θ : ℚ) : ℚ :=
  if PI32 < θ then subTwoPi (θ - 2 * PI32) else θ
termination_by (⌈(θ - PI32) / (2 * PI32)⌉).toNat
decreasing_by
  have hpos : (0 : ℚ) < 2 * PI32 := by norm_num [PI32]
  have key : (θ - 2 * PI32 - PI32) / (2 * PI32) = (θ - PI32) / (2 * PI32) - 1 := by
    field_simp
    ring
  have hnum : (0 : ℚ) < θ - PI32 := by linarith
  have hq : (0 : ℚ) < (θ - PI32) / (2 * PI32) := div_pos hnum hpos
  have hceil : 0 < ⌈(θ - PI32) / (2 * PI32)⌉ := Int.ceil_pos.mpr hq
  rw [key, Int.ceil_sub_one]
  omega

/-- `normalize_angle` from util.rs: the two `while` loops run in sequence on
the same variable. -/
def normalize_angle (θ : ℚ) : ℚ := subTwoPi (addTwoPi θ)

/-! ## Ant (ant.rs)

The ant's rotation is embedded by its direction vector
`(cos rotation, sin rotation)`: every use of the rotation in the motion code
goes through this vector, and the reflections `π - θ` / `-θ` act on it as
`(-x, y)` / `(x, -y)` (`normalize_angle` changes neither cosine nor sine).
The pheromone-sensing / random-walk heading choice and the `rand::random()`
bounce draw are passed in as explicit arguments (`chosenDir`, `coin`); the
walked distance (an `f32` square root in the source) is likewise passed in as
`dist`, since no claim depends on its value. -/

/-- `AntState` from ant.rs. -/
inductive AntState where
  | CarryingFood : AntState
  | LookingForFood : AntState
deriving DecidableEq

/-- `ANT_PHEROMONE_BASE_INTENSITY` (source literal `1.`). -/
def ANT_PHEROMONE_BASE_INTENSITY : ℚ := 1

/-- `ANT_TIME_BETWEEN_STATE_CHECKS` (source literal `0.1`). -/
def ANT_TIME_BETWEEN_STATE_CHECKS : ℚ := 1 / 10

/-- The pheromone-retention factor from ant.rs (source literal `0.99`). -/
def ANT_PHEROMONE_RETAIN_FACTOR : ℚ := 99 / 100

/-- `Ant` from ant.rs (the fields the simulation core reads and writes;
sprite/animation fields are presentation-only). -/
structure Ant where
  dir : ℚ × ℚ
  rect : RectQ
  move_speed : ℚ
  distance_since_last_pheromone : ℚ
  state : AntState
  pheromone_intensity : ℚ
  dt_since_last_update : ℚ
  distance_between_pheromones : ℚ
deriving DecidableEq

/-- `Ant::walk_straight` from ant.rs: advance the rectangle by
`dir * move_speed * dt`, then the `if`/`else if` chain reflects the heading
and clamps the position at (at most one) crossed world boundary. -/
def Ant.walk_straight (a : Ant) (bounding_box : RectQ) (dt : ℚ) : Ant :=
  let x := a.rect.x + a.dir.1 * a.move_speed * dt
  let y := a.rect.y + a.dir.2 * a.move_speed * dt
  if x < bounding_box.x then
    { a with dir := (-a.dir.1, a.dir.2), rect := { a.rect with x := bounding_box.x, y := y } }
  else if bounding_box.w < x + a.rect.w then
    { a with dir := (-a.dir.1, a.dir.2),
             rect := { a.rect with x := bounding_box.w - a.rect.w, y := y } }
  else if y < bounding_box.y then
    { a with dir := (a.dir.1, -a.dir.2), rect := { a.rect with x := x, y := bounding_box.y } }
  else if bounding_box.h < y + a.rect.h then
    { a with dir := (a.dir.1, -a.dir.2),
             rect := { a.rect with x := x, y := bounding_box.h - a.rect.h } }
  else
    { a with rect := { a.rect with x := x, y := y } }

/-- `Ant::bounce_off` from ant.rs: depending on the random draw, the heading
becomes `normalize_angle(-rotation)` (vector `(x, -y)`) or
`normalize_angle(π - rotation)` (vector `(-x, y)`). -/
def Ant.bounce_off (a : Ant) (coin : Bool) : Ant :=
  if coin then { a with dir := (a.dir.1, -a.dir.2) }
  else { a with dir := (-a.dir.1, a.dir.2) }

/-- The state updates `Ant::walk_to_pheromones` performs before calling
`walk_straight`: within the cooldown window only the timer advances; otherwise
the timer resets and the ant snaps to the chosen heading (`chosenDir` stands
for the direction vector of the pheromone target or the random perturbation). -/
def Ant.pre_walk (a : Ant) (dt : ℚ) (chosenDir : ℚ × ℚ) : Ant :=
  if a.dt_since_last_update < ANT_TIME_BETWEEN_STATE_CHECKS then
    { a with dt_since_last_update := a.dt_since_last_update + dt }
  else
    { a with dt_since_last_update := 0, dir := chosenDir }

/-- `Ant::walk_to_pheromones` from ant.rs. -/
def Ant.walk_to_pheromones (a : Ant) (bounding_box : RectQ) (dt : ℚ)
    (chosenDir : ℚ × ℚ) : Ant :=
  (a.pre_walk dt chosenDir).walk_straight bounding_box dt

/-- The ant state right after the walk and the distance accumulation in
`Ant::tick` (ant.rs lines 253-262), before the ending location is resolved. -/
def Ant.moved (a : Ant) (g : WorldGrid) (dt : ℚ) (chosenDir : ℚ × ℚ) (dist : ℚ) :
    Ant :=
  let a1 := a.walk_to_pheromones g.bounding_box dt chosenDir
  { a1 with distance_since_last_pheromone := a1.distance_since_last_pheromone + dist }

/-- `Ant::tick` from ant.rs.  Returns the updated ant together with the
`(ending location, optional pheromone, optional action)` triple the source
returns; `none` embeds the two `expect` panics (ant or post-bounce location
outside the grid). -/
def Ant.tick (a : Ant) (g : WorldGrid) (dt : ℚ) (chosenDir : ℚ × ℚ) (dist : ℚ)
    (coin : Bool) : Option (Ant × GridLocation × Option Pheromone × Option AntActionTaken) :=
  let a2 := a.moved g dt chosenDir dist
  match g.get_grid_location a2.rect.center.1 a2.rect.center.2 with
  | none => none
  | some ending_location =>
    match g.grid ending_location with
    | CellType.Terrain =>
      let a3 := (a2.walk_straight g.bounding_box (-dt)).bounce_off coin
      match g.get_grid_location a3.rect.center.1 a3.rect.center.2 with
      | none => none
      | some loc => some (a3, loc, none, some AntActionTaken.HitTerrain)
    | cell =>
      let a4 : Ant :=
        match cell with
        | CellType.Food _ =>
          { a2 with state := AntState.CarryingFood,
                    pheromone_intensity := ANT_PHEROMONE_BASE_INTENSITY }
        | CellType.Home =>
          { a2 with state := AntState.LookingForFood,
                    pheromone_intensity := ANT_PHEROMONE_BASE_INTENSITY }
        | _ => a2
      let action : Option AntActionTaken :=
        if a.state ≠ a4.state then
          some (match a4.state with
            | AntState.CarryingFood => AntActionTaken.PickedUpFood
            | AntState.LookingForFood => AntActionTaken.DroppedOffFood)
        else none
      if a4.distance_between_pheromones ≤ a4.distance_since_last_pheromone then
        let pheromone_type :=
          match a4.state with
          | AntState.CarryingFood => PheromoneType.Food
          | AntState.LookingForFood => PheromoneType.Home
        let ph := g.create_pheromone_for_loc ending_location pheromone_type
          a4.pheromone_intensity false
        some ({ a4 with distance_since_last_pheromone := 0,
                        pheromone_intensity := a4.pheromone_intensity * ANT_PHEROMONE_RETAIN_FACTOR },
              ending_location, some ph, action)
      else
        some (a4, ending_location, none, action)

/-! ## Analysis helpers and reachability -/

/-- The raw x-coordinate `Ant::walk_straight` moves the ant to, before any
boundary clamping. -/
def Ant.movedX (a : Ant) (dt : ℚ) : ℚ := a.rect.x + a.dir.1 * a.move_speed * dt

/-- The raw y-coordinate `Ant::walk_straight` moves the ant to, before any
boundary clamping. -/
def Ant.movedY (a : Ant) (dt : ℚ) : ℚ := a.rect.y + a.dir.2 * a.move_speed * dt

/-- The grid states reachable through the mutating grid operations:
construction, painting cells, ant-action application, and decay ticks. -/
inductive Reachable : WorldGrid → Prop where
  | base : ∀ (homes : List GridLocation) (sw sh : ℚ) (g : WorldGrid),
      WorldGrid.new homes sw sh = some g → Reachable g
  | spawn : ∀ (g : WorldGrid) (x y : ℚ) (ct : CellType),
      Reachable g → Reachable (g.spawn_cells x y ct)
  | visit : ∀ (g : WorldGrid) (loc : GridLocation) (act : Option AntActionTaken),
      Reachable g → Reachable (g.visit_cell loc act)
  | tick : ∀ (g : WorldGrid) (dt : ℚ),
      Reachable g → Reachable (g.tick dt)

/-! ## Concrete states used by counterexamples and witnesses

The world is an 800×600 screen, giving 4×4 cells (as `WorldGrid::new`
computes them). -/

/-- An 800×600 world with no contents: exactly `WorldGrid::new [] 800 600`. -/
def emptyGrid : WorldGrid :=
  { grid := fun _ => CellType.Empty
    food_pheromones := fun _ => none
    home_pheromones := fun _ => none
    food_cell_locs := fun _ => false
    bounding_box := { x := 0, y := 0, w := 800, h := 600 }
    cell_width := 4
    cell_height := 4
    food_collected := 0 }

/-- The cell rectangle of location (r=75, c=100) in `emptyGrid`. -/
def rectC : RectQ := { x := 400, y := 300, w := 4, h := 4 }

/-- Location (r=75, c=100), the cell containing the point (400, 300). -/
def locC : GridLocation := ⟨75, 100⟩

/-- A locked food-anchor pheromone at `locC` (as `spawn_cells` seeds it). -/
def qC1 : Pheromone := Pheromone.new SPECIAL_PHEROMONE_INTENSITY PheromoneType.Food rectC true

/-- A grid holding the locked anchor `qC1` at `locC`. -/
def gC1 : WorldGrid :=
  { emptyGrid with food_pheromones := fun l => if l = locC then some qC1 else none }

/-- An incoming intensity-locked pheromone aimed at `locC` with intensity 5. -/
def pC1 : Pheromone := Pheromone.new 5 PheromoneType.Food rectC true

/-- An incoming non-locked pheromone aimed at `locC` with intensity 1. -/
def pW1 : Pheromone := Pheromone.new 1 PheromoneType.Food rectC false

/-- A grid holding a locked home anchor at `locC`. -/
def gC10 : WorldGrid :=
  { emptyGrid with
    home_pheromones := fun l =>
      if l = locC then some (Pheromone.new SPECIAL_PHEROMONE_INTENSITY PheromoneType.Home rectC true)
      else none }

/-- An incoming intensity-locked home pheromone aimed at `locC`. -/
def pC10 : Pheromone := Pheromone.new 5 PheromoneType.Home rectC true

/-- `emptyGrid` after painting food at the point (400, 300). -/
def g1c : WorldGrid := emptyGrid.spawn_cells 400 300 (CellType.Food 10)

/-- `g1c` after painting terrain over the same point. -/
def g2c : WorldGrid := g1c.spawn_cells 400 300 CellType.Terrain

/-- A grid with a `Food 2` cell at `locC`. -/
def gC8 : WorldGrid :=
  { emptyGrid with grid := fun l => if l = locC then CellType.Food 2 else CellType.Empty }

/-- A zero-intensity, non-locked, non-decayed pheromone (constructible through
the public `Pheromone::new`). -/
def p0c : Pheromone := Pheromone.new 0 PheromoneType.Food rectC false

/-- A field storing `p0c` at `locC`. -/
def f0c : Pheromones := fun l => if l = locC then some p0c else none

/-- A non-locked pheromone of intensity 1 (the base intensity ants deposit). -/
def p6W : Pheromone := Pheromone.new 1 PheromoneType.Home rectC false

/-- A locked home pheromone, as seeded by `WorldGrid::new`. -/
def p7W : Pheromone := Pheromone.new SPECIAL_PHEROMONE_INTENSITY PheromoneType.Home rectC true

/-- An ant about to cross the top-left corner of the world in one step:
heading `(-3/5, -4/5)` (a unit vector), speed 100, one whole second of `dt`. -/
def aC4 : Ant :=
  { dir := (-3/5, -4/5)
    rect := { x := 1, y := 1, w := 10, h := 12 }
    move_speed := 100
    distance_since_last_pheromone := 0
    state := AntState.LookingForFood
    pheromone_intensity := 1
    dt_since_last_update := 0
    distance_between_pheromones := 1000 }

/-- An ant used to witness the amended boundary-safety statement. -/
def aW4 : Ant :=
  { dir := (1, 0)
    rect := { x := 1, y := 1, w := 10, h := 12 }
    move_speed := 100
    distance_since_last_pheromone := 0
    state := AntState.LookingForFood
    pheromone_intensity := 1
    dt_since_last_update := 0
    distance_between_pheromones := 1000 }

/-- An ant that reflects off the left wall and then steps onto terrain. -/
def aC5 : Ant :=
  { dir := (-1, 0)
    rect := { x := 5, y := 300, w := 10, h := 12 }
    move_speed := 100
    distance_since_last_pheromone := 0
    state := AntState.LookingForFood
    pheromone_intensity := 1
    dt_since_last_update := 0
    distance_between_pheromones := 1000 }

/-- A grid with terrain at the cell (r=76, c=1), next to the left wall. -/
def gC5 : WorldGrid :=
  { emptyGrid with grid := fun l => if l = (⟨76, 1⟩ : GridLocation) then CellType.Terrain else CellType.Empty }

/-- An ant that walks onto terrain without touching any world boundary. -/
def aW5 : Ant :=
  { dir := (1, 0)
    rect := { x := 100, y := 300, w := 10, h := 12 }
    move_speed := 100
    distance_since_last_pheromone := 0
    state := AntState.LookingForFood
    pheromone_intensity := 1
    dt_since_last_update := 0
    distance_between_pheromones := 1000 }

/-- A grid with terrain at the cell (r=76, c=28), away from all boundaries. -/
def gW5 : WorldGrid :=
  { emptyGrid with grid := fun l => if l = (⟨76, 28⟩ : GridLocation) then CellType.Terrain else CellType.Empty }

/-- The ray-cast result for the failing input of the ray-length analysis:
origin cell (75, 100), direction `(1, 0)` (angle 0), requested length 40 px. -/
def S3 : Finset GridLocation :=
  (emptyGrid.get_cells_in_direction rectC (1, 0) 40).getD ∅

/-! ## Basic pheromone-tick lemmas -/

/-- A decayed pheromone is inert under `Pheromone::tick`. -/
theorem Pheromone.tick_of_decayed (p : Pheromone) (dt : ℚ) (h : p.decayed = true) :
    p.tick dt = p := by
  simp [Pheromone.tick, h]

/-- A locked pheromone is inert under `Pheromone::tick`. -/
theorem Pheromone.tick_of_locked (p : Pheromone) (dt : ℚ) (h : p.locked_intensity = true) :
    p.tick dt = p := by
  simp [Pheromone.tick, h]

/-- The decayed flag is sticky along iterated ticks. -/
theorem Pheromone.tickN_decayed_mono (p : Pheromone) (dt : ℚ) (n k : ℕ)
    (h : (p.tickN dt n).decayed = true) : (p.tickN dt (n + k)).decayed = true := by
  induction k with
  | zero => exact h
  | succ k ih =>
    rw [← Nat.add_assoc]
    show ((p.tickN dt (n + k)).tick dt).decayed = true
    rw [Pheromone.tick_of_decayed _ _ ih]
    exact ih

/-- Along iterated ticks of a non-locked pheromone, either the decayed flag
has been raised, or the intensity is the geometric trajectory and (after at
least one step) still at or above the detection floor. -/
theorem Pheromone.tickN_traj (p : Pheromone) (dt : ℚ) (hl : p.locked_intensity = false) :
    ∀ n : ℕ, (p.tickN dt n).decayed = true ∨
      ((p.tickN dt n).decayed = false ∧ (p.tickN dt n).locked_intensity = false ∧
       (p.tickN dt n).intensity = p.intensity * (1 - dt * PHEROMONE_DECAY_RATE) ^ n ∧
       (n = 0 ∨ PHEROMONE_DETECTION_MINIMUM ≤ (p.tickN dt n).intensity)) := by
  intro n
  induction n with
  | zero =>
    cases hd : p.decayed with
    | true => exact Or.inl hd
    | false => exact Or.inr ⟨hd, hl, by simp [Pheromone.tickN], Or.inl rfl⟩
  | succ n ih =>
    rcases ih with h | ⟨hd, hlk, hint, _⟩
    · left
      have := Pheromone.tickN_decayed_mono p dt n 1 h
      simpa using this
    · have hstep : p.tickN dt (n + 1) = (p.tickN dt n).tick dt := rfl
      rw [hstep]
      simp only [Pheromone.tick, hlk, hd, Bool.or_self, Bool.false_eq_true, if_false]
      split_ifs with hmin
      · left
        rfl
      · right
        refine ⟨rfl, rfl, ?_, Or.inr ?_⟩
        · show (p.tickN dt n).intensity * (1 - dt * PHEROMONE_DECAY_RATE) =
            p.intensity * (1 - dt * PHEROMONE_DECAY_RATE) ^ (n + 1)
          rw [hint, pow_succ, mul_assoc]
        · exact not_lt.mp hmin

/-- For any non-locked pheromone and any positive `dt`, iterated decay
eventually raises the decayed flag. -/
theorem Pheromone.exists_tickN_decayed (p : Pheromone) (dt : ℚ)
    (hl : p.locked_intensity = false) (hdt : 0 < dt) :
    ∃ n, (p.tickN dt n).decayed = true := by
  set r : ℚ := 1 - dt * PHEROMONE_DECAY_RATE with hrdef
  clear_value r
  have hrate : PHEROMONE_DECAY_RATE = 2 / 5 := rfl
  have hMIN : PHEROMONE_DETECTION_MINIMUM = 1 / 100 := rfl
  have hr1 : r < 1 := by rw [hrdef, hrate]; nlinarith
  by_contra hc
  push_neg at hc
  have hc' : ∀ n, (p.tickN dt n).decayed = false := by
    intro n
    cases h : (p.tickN dt n).decayed
    · rfl
    · exact absurd h (hc n)
  have traj : ∀ n, (p.tickN dt n).intensity = p.intensity * r ^ n ∧
      (n = 0 ∨ PHEROMONE_DETECTION_MINIMUM ≤ (p.tickN dt n).intensity) := by
    intro n
    rcases Pheromone.tickN_traj p dt hl n with h | ⟨_, _, hint, hmin⟩
    · rw [hc' n] at h; exact absurd h (by simp)
    · rw [hrdef]
      exact ⟨hint, hmin⟩
  have h1 : PHEROMONE_DETECTION_MINIMUM ≤ p.intensity * r := by
    obtain ⟨hint, hmin⟩ := traj 1
    rcases hmin with h | h
    · exact absurd h (by omega)
    · rw [hint, pow_one] at h
      exact h
  rcases le_or_lt r 0 with hr0 | hr0
  · have h2 : PHEROMONE_DETECTION_MINIMUM ≤ p.intensity * r ^ 2 := by
      obtain ⟨hint, hmin⟩ := traj 2
      rcases hmin with h | h
      · exact absurd h (by omega)
      · rwa [hint] at h
    rw [hMIN] at h1 h2
    have hrneg : r < 0 := by
      rcases lt_or_eq_of_le hr0 with hlt | heq
      · exact hlt
      · exfalso
        rw [heq, mul_zero] at h1
        norm_num at h1
    have hI : p.intensity < 0 := by
      by_contra hge
      push_neg at hge
      have : p.intensity * r ≤ 0 := mul_nonpos_of_nonneg_of_nonpos hge hr0
      linarith
    have hr2 : 0 < r ^ 2 := by
      have := mul_pos (neg_pos.mpr hrneg) (neg_pos.mpr hrneg)
      nlinarith
    have : p.intensity * r ^ 2 < 0 := mul_neg_of_neg_of_pos hI hr2
    linarith
  · rcases le_or_lt p.intensity 0 with hI | hI
    · rw [hMIN] at h1
      nlinarith
    · have hMINpos : (0 : ℚ) < PHEROMONE_DETECTION_MINIMUM := by rw [hMIN]; norm_num
      obtain ⟨n, hn⟩ := exists_pow_lt_of_lt_one (div_pos hMINpos hI) hr1
      have hpow : r ^ (n + 1) < PHEROMONE_DETECTION_MINIMUM / p.intensity := by
        have hpos : 0 < r ^ n := pow_pos hr0 n
        calc r ^ (n + 1) = r ^ n * r := pow_succ r n
          _ < r ^ n * 1 := by exact mul_lt_mul_of_pos_left hr1 hpos
          _ = r ^ n := mul_one _
          _ < PHEROMONE_DETECTION_MINIMUM / p.intensity := hn
      have hlt : p.intensity * r ^ (n + 1) < PHEROMONE_DETECTION_MINIMUM := by
        rw [lt_div_iff₀ hI] at hpow
        linarith [hpow, mul_comm (r ^ (n + 1)) p.intensity]
      obtain ⟨hint, hmin⟩ := traj (n + 1)
      rcases hmin with h | h
      · exact absurd h (Nat.succ_ne_zero n)
      · rw [hint] at h
        linarith

/-- Along iterated field decay, the entry at a location is either gone or the
iterated tick of the original pheromone. -/
theorem Pheromones.tickIter_track (f : Pheromones) (dt : ℚ) (loc : GridLocation)
    (p : Pheromone) (hf : f loc = some p) :
    ∀ m, (f.tickIter dt m) loc = none ∨ (f.tickIter dt m) loc = some (p.tickN dt m) := by
  intro m
  induction m with
  | zero => exact Or.inr hf
  | succ m ih =>
    show (Pheromones.tick (f.tickIter dt m) dt) loc = none ∨
      (Pheromones.tick (f.tickIter dt m) dt) loc = some ((p.tickN dt m).tick dt)
    rcases ih with h | h
    · left; simp [Pheromones.tick, h]
    · by_cases hd : ((p.tickN dt m).tick dt).decayed = true
      · left; simp [Pheromones.tick, h, hd]
      · right; simp [Pheromones.tick, h, hd]

/-- Once the iterated tick of the stored pheromone is decayed, the next field
decay removes the entry. -/
theorem Pheromones.tickIter_none_of_decayed (f : Pheromones) (dt : ℚ)
    (loc : GridLocation) (p : Pheromone) (hf : f loc = some p) (n : ℕ)
    (hn : (p.tickN dt n).decayed = true) : (f.tickIter dt (n + 1)) loc = none := by
  rcases Pheromones.tickIter_track f dt loc p hf n with h | h
  · show (Pheromones.tick (f.tickIter dt n) dt) loc = none
    simp [Pheromones.tick, h]
  · show (Pheromones.tick (f.tickIter dt n) dt) loc = none
    have heq : (p.tickN dt n).tick dt = p.tickN dt n := Pheromone.tick_of_decayed _ _ hn
    simp [Pheromones.tick, h, heq, hn]

/-! ## C7: locked pheromones never decay and are never swept -/

/-- C7: an intensity-locked pheromone is unchanged by any single decay call
and by any sequence of decay calls with arbitrary `dt` values; a locked
pheromone starts with `decayed = false` at construction, and a stored locked,
non-decayed pheromone survives every field decay-and-sweep unchanged, for any
number of sweeps. -/
theorem C7_locked_never_decays (p : Pheromone) (hlock : p.locked_intensity = true) :
    (∀ dt : ℚ, p.tick dt = p) ∧
    (∀ dts : List ℚ, dts.foldl Pheromone.tick p = p) ∧
    (∀ (i : ℚ) (t : PheromoneType) (r : RectQ),
      (Pheromone.new i t r true).decayed = false) ∧
    (∀ (f : Pheromones) (loc : GridLocation) (dt : ℚ),
      f loc = some p → p.decayed = false → (f.tick dt) loc = some p) ∧
    (∀ (f : Pheromones) (loc : GridLocation) (dt : ℚ) (n : ℕ),
      f loc = some p → p.decayed = false → (f.tickIter dt n) loc = some p) := by
  have h1 : ∀ dt : ℚ, p.tick dt = p := fun dt => Pheromone.tick_of_locked p dt hlock
  have h4 : ∀ (f : Pheromones) (loc : GridLocation) (dt : ℚ),
      f loc = some p → p.decayed = false → (f.tick dt) loc = some p := by
    intro f loc dt hf hd
    simp [Pheromones.tick, hf, h1, hd]
  refine ⟨h1, ?_, fun i t r => rfl, h4, ?_⟩
  · intro dts
    induction dts with
    | nil => rfl
    | cons d ds ih =>
      rw [List.foldl_cons, h1 d]
      exact ih
  · intro f loc dt n hf hd
    induction n with
    | zero => exact hf
    | succ n ih => exact h4 (f.tickIter dt n) loc dt ih hd

/-- C7 witness: the locked home-anchor pheromone is untouched by a decay call. -/
theorem C7_witness : Pheromone.tick p7W 5 = p7W :=
  (C7_locked_never_decays p7W rfl).1 5

/-! ## C6: decay of non-locked pheromones -/

/-- C6 counterexample: a stored, non-locked, non-decayed pheromone of
intensity 0 and a decay step with `dt = 1 > 0` whose resulting intensity is
*not* strictly less than the prior intensity (it stays 0): the claimed strict
decrease fails without a positivity assumption on the intensity. -/
theorem C6_counterexample :
    p0c.locked_intensity = false ∧ p0c.decayed = false ∧ f0c locC = some p0c ∧
    (0 : ℚ) < 1 ∧ ¬ ((p0c.tick 1).intensity < p0c.intensity) := by
  with_unfolding_all decide

/-- C6 (amended): for a non-locked, non-decayed pheromone, a decay step
multiplies the intensity by `1 - dt * PHEROMONE_DECAY_RATE`; for `dt > 0` and
*positive* prior intensity the result is strictly smaller; when the new
intensity is below the detection floor the pheromone is marked decayed; any
stored entry whose tick marks it decayed is removed by the field sweep; and
with any fixed `dt > 0`, iterated field decay eventually removes the entry. -/
theorem C6_decay_amended (p : Pheromone) (dt : ℚ)
    (hl : p.locked_intensity = false) (hd : p.decayed = false) :
    ((p.tick dt).intensity = p.intensity * (1 - dt * PHEROMONE_DECAY_RATE)) ∧
    (0 < dt → 0 < p.intensity → (p.tick dt).intensity < p.intensity) ∧
    ((p.tick dt).intensity < PHEROMONE_DETECTION_MINIMUM → (p.tick dt).decayed = true) ∧
    (∀ (f : Pheromones) (loc : GridLocation) (q : Pheromone),
      f loc = some q → (q.tick dt).decayed = true → (f.tick dt) loc = none) ∧
    (∀ (f : Pheromones) (loc : GridLocation),
      f loc = some p → 0 < dt → ∃ n, (f.tickIter dt n) loc = none) := by
  have htick : p.tick dt =
      (if p.intensity * (1 - dt * PHEROMONE_DECAY_RATE) < PHEROMONE_DETECTION_MINIMUM then
        { p with intensity := p.intensity * (1 - dt * PHEROMONE_DECAY_RATE), decayed := true }
      else
        { p with intensity := p.intensity * (1 - dt * PHEROMONE_DECAY_RATE) }) := by
    simp [Pheromone.tick, hl, hd]
  have hint : (p.tick dt).intensity = p.intensity * (1 - dt * PHEROMONE_DECAY_RATE) := by
    rw [htick]
    split_ifs <;> rfl
  refine ⟨hint, ?_, ?_, ?_, ?_⟩
  · intro hdt hpos
    rw [hint]
    have hrate : (0 : ℚ) < dt * PHEROMONE_DECAY_RATE := by
      have : PHEROMONE_DECAY_RATE = 2 / 5 := rfl
      rw [this]
      positivity
    nlinarith
  · intro hlow
    rw [hint] at hlow
    rw [htick, if_pos hlow]
  · intro f loc q hf hdq
    simp [Pheromones.tick, hf, hdq]
  · intro f loc hf hdt
    obtain ⟨n, hn⟩ := Pheromone.exists_tickN_decayed p dt hl hdt
    exact ⟨n + 1, Pheromones.tickIter_none_of_decayed f dt loc p hf n hn⟩

/-- C6 witness: a fresh intensity-1 trail pheromone strictly loses intensity
in a decay step with `dt = 1`. -/
theorem C6_witness : (p6W.tick 1).intensity < p6W.intensity :=
  (C6_decay_amended p6W 1 rfl rfl).2.1 (by norm_num) (by norm_num [p6W, Pheromone.new])

/-! ## C8: food pickup -/

/-- C8: applying `PickedUpFood` at a `Food n` cell decrements the supply when
`n > 1`; when `n = 1` it empties the cell, deletes the food pheromone entry
and the food-tracking entry at that location; in both cases every other cell
and every other grid field is unchanged. -/
theorem C8_food_depletion (g : WorldGrid) (loc : GridLocation) (n : ℕ)
    (h : g.grid loc = CellType.Food n) :
    (1 < n →
      (g.visit_cell loc (some AntActionTaken.PickedUpFood)).grid loc = CellType.Food (n - 1) ∧
      (∀ l, l ≠ loc →
        (g.visit_cell loc (some AntActionTaken.PickedUpFood)).grid l = g.grid l) ∧
      (g.visit_cell loc (some AntActionTaken.PickedUpFood)).food_pheromones = g.food_pheromones ∧
      (g.visit_cell loc (some AntActionTaken.PickedUpFood)).home_pheromones = g.home_pheromones ∧
      (g.visit_cell loc (some AntActionTaken.PickedUpFood)).food_cell_locs = g.food_cell_locs ∧
      (g.visit_cell loc (some AntActionTaken.PickedUpFood)).food_collected = g.food_collected ∧
      (g.visit_cell loc (some AntActionTaken.PickedUpFood)).bounding_box = g.bounding_box) ∧
    (n = 1 →
      (g.visit_cell loc (some AntActionTaken.PickedUpFood)).grid loc = CellType.Empty ∧
      (g.visit_cell loc (some AntActionTaken.PickedUpFood)).food_pheromones loc = none ∧
      (g.visit_cell loc (some AntActionTaken.PickedUpFood)).food_cell_locs loc = false ∧
      (∀ l, l ≠ loc →
        (g.visit_cell loc (some AntActionTaken.PickedUpFood)).grid l = g.grid l ∧
        (g.visit_cell loc (some AntActionTaken.PickedUpFood)).food_pheromones l = g.food_pheromones l ∧
        (g.visit_cell loc (some AntActionTaken.PickedUpFood)).food_cell_locs l = g.food_cell_locs l) ∧
      (g.visit_cell loc (some AntActionTaken.PickedUpFood)).home_pheromones = g.home_pheromones ∧
      (g.visit_cell loc (some AntActionTaken.PickedUpFood)).food_collected = g.food_collected ∧
      (g.visit_cell loc (some AntActionTaken.PickedUpFood)).bounding_box = g.bounding_box) := by
  constructor
  · intro hn
    have hv : g.visit_cell loc (some AntActionTaken.PickedUpFood) =
        { g with grid := fun l => if l = loc then CellType.Food (n - 1) else g.grid l } := by
      simp [WorldGrid.visit_cell, h, if_pos hn]
    rw [hv]
    refine ⟨by simp, fun l hl => by simp [hl], rfl, rfl, rfl, rfl, rfl⟩
  · intro hn
    subst hn
    have hv : g.visit_cell loc (some AntActionTaken.PickedUpFood) =
        { g with
          grid := fun l => if l = loc then CellType.Empty else g.grid l
          food_pheromones := fun l => if l = loc then none else g.food_pheromones l
          food_cell_locs := fun l => if l = loc then false else g.food_cell_locs l } := by
      simp [WorldGrid.visit_cell, h]
    rw [hv]
    exact ⟨by simp, by simp, by simp,
      fun l hl => ⟨by simp [hl], by simp [hl], by simp [hl]⟩, rfl, rfl, rfl⟩

/-- C8 witness: picking food up from a `Food 2` cell leaves `Food 1`. -/
theorem C8_witness :
    (gC8.visit_cell locC (some AntActionTaken.PickedUpFood)).grid locC = CellType.Food 1 :=
  ((C8_food_depletion gC8 locC 2 (by decide)).1 (by norm_num)).1

/-! ## C1 / C10: deposit semantics -/

/-- Field-level behavior of `deposit` for a non-locked incoming pheromone:
reinforce a non-locked existing entry (additively, capped), leave a locked
existing entry untouched, insert when absent, and never touch other
locations. -/
theorem Pheromones.deposit_spec (e : Pheromones) (loc : GridLocation) (p : Pheromone)
    (hnl : p.locked_intensity = false) :
    (∀ q, e loc = some q → q.locked_intensity = false →
      (e.deposit loc p) loc =
        some { q with intensity := min (q.intensity + p.intensity) PHEROMONE_INTENSITY_MAX }) ∧
    (∀ q, e loc = some q → q.locked_intensity = true →
      (e.deposit loc p) loc = some q) ∧
    (e loc = none → (e.deposit loc p) loc = some p) ∧
    (∀ l, l ≠ loc → (e.deposit loc p) l = e l) := by
  refine ⟨?_, ?_, ?_, ?_⟩
  · intro q hq hql
    simp [Pheromones.deposit, hnl, hq, Pheromone.increase_intensity, hql]
  · intro q hq hql
    simp [Pheromones.deposit, hnl, hq, Pheromone.increase_intensity, hql]
  · intro hq
    simp [Pheromones.deposit, hnl, hq]
  · intro l hl
    rcases he : e loc with _ | q <;> simp [Pheromones.deposit, hnl, he, hl]

/-- Field-level behavior of `deposit` for a locked incoming pheromone: it is
inserted unconditionally, replacing whatever entry (locked or not) was
stored at the location. -/
theorem Pheromones.deposit_locked_spec (e : Pheromones) (loc : GridLocation) (p : Pheromone)
    (hl : p.locked_intensity = true) :
    (e.deposit loc p) loc = some p ∧ (∀ l, l ≠ loc → (e.deposit loc p) l = e l) := by
  constructor
  · simp [Pheromones.deposit, hl]
  · intro l hll
    simp [Pheromones.deposit, hl, hll]

/-- C1 counterexample: an intensity-locked incoming pheromone deposited onto a
location already holding an intensity-locked anchor *replaces* the anchor
(the stored intensity becomes 5 instead of the anchor's 10000), so the claim
that the incoming value is discarded "for every incoming pheromone whether
locked or not" is false. -/
theorem C1_counterexample :
    gC1.food_pheromones locC = some qC1 ∧ qC1.locked_intensity = true ∧
    qC1.intensity = 10000 ∧ pC1.locked_intensity = true ∧ pC1.intensity = 5 ∧
    gC1.get_grid_location pC1.rect.center.1 pC1.rect.center.2 = some locC ∧
    (gC1.deposit_pheromone pC1).map (fun g => g.food_pheromones locC) = some (some pC1) := by
  refine ⟨by with_unfolding_all rfl, rfl, rfl, rfl, rfl, ?_, ?_⟩
  · with_unfolding_all decide
  · with_unfolding_all decide

/-- C1 (amended): for every call to `deposit_pheromone` resolving to location
L whose incoming pheromone is *not* intensity-locked: a non-locked existing
same-type pheromone at L is reinforced additively (capped at the fixed
maximum) and the incoming value discarded; a locked existing pheromone at L is
left entirely unchanged and the incoming value discarded; with no existing
pheromone at L the incoming one is inserted.  Other locations, the other
scent field, the cell table and the food-tracking set are unchanged.
(An intensity-locked incoming pheromone is instead inserted unconditionally —
see the C10 theorem.) -/
theorem C1_deposit_amended (g : WorldGrid) (p : Pheromone) (L : GridLocation)
    (hres : g.get_grid_location p.rect.center.1 p.rect.center.2 = some L)
    (hnl : p.locked_intensity = false) :
    (g.deposit_pheromone p).isSome = true ∧
    ∀ g', g.deposit_pheromone p = some g' →
      (∀ q, g.phField p.pheromone_type L = some q → q.locked_intensity = false →
        g'.phField p.pheromone_type L =
          some { q with intensity := min (q.intensity + p.intensity) PHEROMONE_INTENSITY_MAX }) ∧
      (∀ q, g.phField p.pheromone_type L = some q → q.locked_intensity = true →
        g'.phField p.pheromone_type L = some q) ∧
      (g.phField p.pheromone_type L = none → g'.phField p.pheromone_type L = some p) ∧
      (∀ l, l ≠ L → g'.phField p.pheromone_type l = g.phField p.pheromone_type l) ∧
      (∀ t, t ≠ p.pheromone_type → g'.phField t = g.phField t) ∧
      g'.grid = g.grid ∧ g'.food_cell_locs = g.food_cell_locs := by
  obtain ⟨h1, h2, h3, h4⟩ := Pheromones.deposit_spec (g.phField p.pheromone_type) L p hnl
  cases htp : p.pheromone_type with
  | Food =>
    have hdep : g.deposit_pheromone p =
        some { g with food_pheromones := g.food_pheromones.deposit L p } := by
      unfold WorldGrid.deposit_pheromone
      rw [hres, htp]
    rw [htp] at h1 h2 h3 h4
    refine ⟨by simp [hdep], ?_⟩
    intro g' hg'
    rw [hdep] at hg'
    have hg'' : g' = { g with food_pheromones := g.food_pheromones.deposit L p } :=
      (Option.some.inj hg').symm
    subst hg''
    refine ⟨h1, h2, h3, h4, ?_, rfl, rfl⟩
    intro t ht
    cases t with
    | Food => exact absurd rfl ht
    | Home => rfl
  | Home =>
    have hdep : g.deposit_pheromone p =
        some { g with home_pheromones := g.home_pheromones.deposit L p } := by
      unfold WorldGrid.deposit_pheromone
      rw [hres, htp]
    rw [htp] at h1 h2 h3 h4
    refine ⟨by simp [hdep], ?_⟩
    intro g' hg'
    rw [hdep] at hg'
    have hg'' : g' = { g with home_pheromones := g.home_pheromones.deposit L p } :=
      (Option.some.inj hg').symm
    subst hg''
    refine ⟨h1, h2, h3, h4, ?_, rfl, rfl⟩
    intro t ht
    cases t with
    | Food => rfl
    | Home => exact absurd rfl ht

/-- C1 witness: depositing a non-locked food pheromone on an empty field
inserts it at the resolved location. -/
theorem C1_witness :
    ((emptyGrid.deposit_pheromone pW1).getD emptyGrid).phField PheromoneType.Food locC =
      some pW1 := by
  have h := C1_deposit_amended emptyGrid pW1 locC (by with_unfolding_all decide) rfl
  rcases hdep : emptyGrid.deposit_pheromone pW1 with _ | g'
  · rw [hdep] at h
    simp at h
  · exact ((h.2 g' hdep).2.2.1) rfl

/-- C10: an intensity-locked incoming pheromone is inserted unconditionally at
its resolved location, replacing any same-type entry stored there (in
particular an existing locked anchor, whose intensity is overwritten); other
locations and the other scent field are unchanged. -/
theorem C10_locked_deposit_inserts (g : WorldGrid) (p : Pheromone) (L : GridLocation)
    (hl : p.locked_intensity = true)
    (hres : g.get_grid_location p.rect.center.1 p.rect.center.2 = some L) :
    (g.deposit_pheromone p).isSome = true ∧
    ∀ g', g.deposit_pheromone p = some g' →
      g'.phField p.pheromone_type L = some p ∧
      (∀ l, l ≠ L → g'.phField p.pheromone_type l = g.phField p.pheromone_type l) ∧
      (∀ t, t ≠ p.pheromone_type → g'.phField t = g.phField t) := by
  obtain ⟨h1, h2⟩ := Pheromones.deposit_locked_spec (g.phField p.pheromone_type) L p hl
  cases htp : p.pheromone_type with
  | Food =>
    have hdep : g.deposit_pheromone p =
        some { g with food_pheromones := g.food_pheromones.deposit L p } := by
      unfold WorldGrid.deposit_pheromone
      rw [hres, htp]
    rw [htp] at h1 h2
    refine ⟨by simp [hdep], ?_⟩
    intro g' hg'
    rw [hdep] at hg'
    have hg'' : g' = { g with food_pheromones := g.food_pheromones.deposit L p } :=
      (Option.some.inj hg').symm
    subst hg''
    refine ⟨h1, h2, ?_⟩
    intro t ht
    cases t with
    | Food => exact absurd rfl ht
    | Home => rfl
  | Home =>
    have hdep : g.deposit_pheromone p =
        some { g with home_pheromones := g.home_pheromones.deposit L p } := by
      unfold WorldGrid.deposit_pheromone
      rw [hres, htp]
    rw [htp] at h1 h2
    refine ⟨by simp [hdep], ?_⟩
    intro g' hg'
    rw [hdep] at hg'
    have hg'' : g' = { g with home_pheromones := g.home_pheromones.deposit L p } :=
      (Option.some.inj hg').symm
    subst hg''
    refine ⟨h1, h2, ?_⟩
    intro t ht
    cases t with
    | Food => rfl
    | Home => exact absurd rfl ht

/-- C10 witness: a locked home pheromone of intensity 5 replaces the locked
home anchor of intensity 10000 stored at the same location. -/
theorem C10_witness :
    ((gC10.deposit_pheromone pC10).getD gC10).phField PheromoneType.Home locC = some pC10 := by
  have h := C10_locked_deposit_inserts gC10 pC10 locC rfl (by with_unfolding_all decide)
  rcases hdep : gC10.deposit_pheromone pC10 with _ | g'
  · rw [hdep] at h
    simp at h
  · exact (h.2 g' hdep).1

/-! ## C2: food-cell tracking -/

/-- The food-tracking property that the code actually maintains: every
location whose cell is `Food` is in `food_cell_locs` (the converse can fail,
see the C2 counterexample). -/
def FoodTracked (g : WorldGrid) : Prop :=
  ∀ (loc : GridLocation) (n : ℕ), g.grid loc = CellType.Food n → g.food_cell_locs loc = true

/-- `deposit_pheromone` touches neither the cell table nor the food-tracking
set. -/
theorem WorldGrid.deposit_preserves (g : WorldGrid) (p : Pheromone) (g' : WorldGrid)
    (h : g.deposit_pheromone p = some g') :
    g'.grid = g.grid ∧ g'.food_cell_locs = g.food_cell_locs := by
  unfold WorldGrid.deposit_pheromone at h
  rcases hloc : g.get_grid_location p.rect.center.1 p.rect.center.2 with _ | L
  · simp only [hloc] at h
    exact Option.noConfusion h
  · simp only [hloc] at h
    rcases htp : p.pheromone_type with _ | _ <;> simp only [htp] at h <;>
      (obtain rfl := (Option.some.inj h).symm; exact ⟨rfl, rfl⟩)

/-- The home-pheromone seeding fold of `WorldGrid::new` propagates `none`. -/
theorem WorldGrid.new_fold_none :
    ∀ (homes : List GridLocation),
      homes.foldl
        (fun (acc : Option WorldGrid) home_loc => acc.bind fun gg =>
          gg.deposit_pheromone
            (gg.create_pheromone_for_loc home_loc PheromoneType.Home
              SPECIAL_PHEROMONE_INTENSITY true)) (none : Option WorldGrid) = none := by
  intro homes
  induction homes with
  | nil => rfl
  | cons hd tl ih =>
    rw [List.foldl_cons]
    simpa using ih

/-- The home-pheromone seeding fold of `WorldGrid::new` preserves the cell
table and the food-tracking set. -/
theorem WorldGrid.new_fold_preserves :
    ∀ (homes : List GridLocation) (g1 g : WorldGrid),
      homes.foldl
        (fun acc home_loc => acc.bind fun gg =>
          gg.deposit_pheromone
            (gg.create_pheromone_for_loc home_loc PheromoneType.Home
              SPECIAL_PHEROMONE_INTENSITY true)) (some g1) = some g →
      g.grid = g1.grid ∧ g.food_cell_locs = g1.food_cell_locs := by
  intro homes
  induction homes with
  | nil =>
    intro g1 g h
    obtain rfl := (Option.some.inj h).symm
    exact ⟨rfl, rfl⟩
  | cons hd tl ih =>
    intro g1 g h
    rw [List.foldl_cons] at h
    rcases hstep : g1.deposit_pheromone
        (g1.create_pheromone_for_loc hd PheromoneType.Home
          SPECIAL_PHEROMONE_INTENSITY true) with _ | g2
    · rw [show ((some g1).bind fun gg =>
          gg.deposit_pheromone
            (gg.create_pheromone_for_loc hd PheromoneType.Home
              SPECIAL_PHEROMONE_INTENSITY true)) = none from by
        simp [hstep]] at h
      rw [WorldGrid.new_fold_none tl] at h
      exact Option.noConfusion h
    · rw [show ((some g1).bind fun gg =>
          gg.deposit_pheromone
            (gg.create_pheromone_for_loc hd PheromoneType.Home
              SPECIAL_PHEROMONE_INTENSITY true)) = some g2 from by
        simp [hstep]] at h
      obtain ⟨h1, h2⟩ := ih g2 g h
      obtain ⟨h3, h4⟩ := WorldGrid.deposit_preserves g1 _ g2 hstep
      exact ⟨h1.trans h3, h2.trans h4⟩

/-- A grid produced by `WorldGrid::new` has the painted home cells and an
empty food-tracking set. -/
theorem WorldGrid.new_spec (homes : List GridLocation) (sw sh : ℚ) (g : WorldGrid)
    (h : WorldGrid.new homes sw sh = some g) :
    g.grid = (fun l => if l ∈ homes then CellType.Home else CellType.Empty) ∧
    g.food_cell_locs = (fun _ => false) := by
  unfold WorldGrid.new at h
  exact WorldGrid.new_fold_preserves homes _ g h

/-- One `spawn_cells` loop-body application preserves food tracking. -/
theorem foodTracked_spawn_cell_at (ct : CellType) (g : WorldGrid) (loc : GridLocation)
    (h : FoodTracked g) : FoodTracked (g.spawn_cell_at ct loc) := by
  intro l n hf
  by_cases hl : l = loc
  · subst hl
    cases ct with
    | Food k => simp [WorldGrid.spawn_cell_at]
    | Home => simp [WorldGrid.spawn_cell_at] at hf
    | Terrain => simp [WorldGrid.spawn_cell_at] at hf
    | Empty => simp [WorldGrid.spawn_cell_at] at hf
  · cases ct with
    | Food k =>
      simp only [WorldGrid.spawn_cell_at] at hf ⊢
      simp only [if_neg hl] at hf ⊢
      exact h l n hf
    | Home =>
      simp only [WorldGrid.spawn_cell_at] at hf ⊢
      simp only [if_neg hl] at hf
      exact h l n hf
    | Terrain =>
      simp only [WorldGrid.spawn_cell_at] at hf ⊢
      simp only [if_neg hl] at hf
      exact h l n hf
    | Empty =>
      simp only [WorldGrid.spawn_cell_at] at hf ⊢
      simp only [if_neg hl] at hf
      exact h l n hf

/-- The whole `spawn_cells` location fold preserves food tracking. -/
theorem foodTracked_foldl_spawn (ct : CellType) :
    ∀ (locs : List GridLocation) (g : WorldGrid), FoodTracked g →
      FoodTracked (locs.foldl (WorldGrid.spawn_cell_at ct) g) := by
  intro locs
  induction locs with
  | nil => intro g h; exact h
  | cons hd tl ih => intro g h; exact ih _ (foodTracked_spawn_cell_at ct g hd h)

/-- `spawn_cells` preserves food tracking. -/
theorem foodTracked_spawn_cells (g : WorldGrid) (x y : ℚ) (ct : CellType)
    (h : FoodTracked g) : FoodTracked (g.spawn_cells x y ct) := by
  unfold WorldGrid.spawn_cells
  rcases horig : g.get_grid_location x y with _ | origin
  · simp only [horig]
    exact h
  · simp only [horig]
    exact foodTracked_foldl_spawn ct (spawnLocs origin) g h

/-- `visit_cell` preserves food tracking. -/
theorem foodTracked_visit_cell (g : WorldGrid) (loc : GridLocation)
    (act : Option AntActionTaken) (h : FoodTracked g) :
    FoodTracked (g.visit_cell loc act) := by
  intro l n hf
  cases act with
  | none => exact h l n hf
  | some a =>
    cases a with
    | DroppedOffFood => exact h l n hf
    | HitTerrain => exact h l n hf
    | PickedUpFood =>
      rcases hcell : g.grid loc with s | _ | _ | _
      · simp only [WorldGrid.visit_cell, hcell] at hf ⊢
        by_cases hs : 1 < s
        · rw [if_pos hs] at hf ⊢
          by_cases hl : l = loc
          · subst hl
            exact h l s hcell
          · simp only [if_neg hl] at hf
            exact h l n hf
        · rw [if_neg hs] at hf ⊢
          by_cases hl : l = loc
          · subst hl
            simp at hf
          · simp only [if_neg hl] at hf ⊢
            exact h l n hf
      · simp only [WorldGrid.visit_cell, hcell] at hf ⊢
        exact h l n hf
      · simp only [WorldGrid.visit_cell, hcell] at hf ⊢
        exact h l n hf
      · simp only [WorldGrid.visit_cell, hcell] at hf ⊢
        exact h l n hf

/-- C2 (amended): in every reachable grid state, `food_cell_locs` contains
every location whose cell type is `Food(_)` (it is a *superset* of the food
cells; exact equality fails, see the C2 counterexample: painting a non-Food
cell type over a food cell leaves a stale tracking entry). -/
theorem C2_food_tracking_amended (g : WorldGrid) (hg : Reachable g) :
    ∀ (loc : GridLocation) (n : ℕ),
      g.grid loc = CellType.Food n → g.food_cell_locs loc = true := by
  induction hg with
  | base homes sw sh g0 hnew =>
    intro loc n hf
    obtain ⟨hgrid, _⟩ := WorldGrid.new_spec homes sw sh g0 hnew
    rw [hgrid] at hf
    by_cases hmem : loc ∈ homes <;> simp [hmem] at hf
  | spawn g0 x y ct hr ih => exact foodTracked_spawn_cells g0 x y ct ih
  | visit g0 loc act hr ih => exact foodTracked_visit_cell g0 loc act ih
  | tick g0 dt hr ih => intro l n hf; exact ih l n hf

/-- C2 counterexample: painting food at (400, 300) and then painting terrain
over the same spot yields a reachable state in which location (75, 100) is
still in `food_cell_locs` although its cell type is `Terrain`: the tracking
set is *not* equal to the set of Food locations. -/
theorem C2_counterexample :
    Reachable g2c ∧ g2c.food_cell_locs locC = true ∧ g2c.grid locC = CellType.Terrain := by
  refine ⟨?_, by with_unfolding_all decide, by with_unfolding_all decide⟩
  have h0 : WorldGrid.new [] 800 600 = some emptyGrid := by with_unfolding_all rfl
  exact Reachable.spawn _ _ _ _
    (Reachable.spawn _ _ _ _ (Reachable.base [] 800 600 emptyGrid h0))

/-- C2 witness: in the reachable state with food painted at (400, 300), the
food cell (75, 100) is tracked. -/
theorem C2_witness : g1c.food_cell_locs locC = true := by
  have h0 : WorldGrid.new [] 800 600 = some emptyGrid := by with_unfolding_all rfl
  exact C2_food_tracking_amended g1c
    (Reachable.spawn _ _ _ _ (Reachable.base [] 800 600 emptyGrid h0)) locC 10
    (by with_unfolding_all decide)

/-! ## C9: angle normalization -/

/-- The first loop of `normalize_angle` never returns a value below `-π`. -/
theorem addTwoPi_ge (θ : ℚ) : -PI32 ≤ addTwoPi θ := by
  induction θ using addTwoPi.induct with
  | case1 θ h ih => rw [addTwoPi, if_pos h]; exact ih
  | case2 θ h => rw [addTwoPi, if_neg h]; linarith

/-- The first loop only shifts its input by a whole number of turns. -/
theorem addTwoPi_shift (θ : ℚ) : ∃ m : ℤ, addTwoPi θ = θ + 2 * PI32 * m := by
  induction θ using addTwoPi.induct with
  | case1 θ h ih =>
    obtain ⟨m, hm⟩ := ih
    refine ⟨m + 1, ?_⟩
    rw [addTwoPi, if_pos h, hm]
    push_cast
    ring
  | case2 θ h =>
    refine ⟨0, ?_⟩
    rw [addTwoPi, if_neg h]
    push_cast
    ring

/-- The second loop of `normalize_angle` never returns a value above `π`. -/
theorem subTwoPi_le (θ : ℚ) : subTwoPi θ ≤ PI32 := by
  induction θ using subTwoPi.induct with
  | case1 θ h ih => rw [subTwoPi, if_pos h]; exact ih
  | case2 θ h => rw [subTwoPi, if_neg h]; linarith

/-- The second loop preserves being at or above `-π`. -/
theorem subTwoPi_ge (θ : ℚ) (hθ : -PI32 ≤ θ) : -PI32 ≤ subTwoPi θ := by
  induction θ using subTwoPi.induct with
  | case1 θ h ih =>
    rw [subTwoPi, if_pos h]
    have hpi : (0 : ℚ) < PI32 := by norm_num [PI32]
    exact ih (by linarith)
  | case2 θ h => rw [subTwoPi, if_neg h]; exact hθ

/-- The second loop only shifts its input by a whole number of turns. -/
theorem subTwoPi_shift (θ : ℚ) : ∃ m : ℤ, subTwoPi θ = θ + 2 * PI32 * m := by
  induction θ using subTwoPi.induct with
  | case1 θ h ih =>
    obtain ⟨m, hm⟩ := ih
    refine ⟨m - 1, ?_⟩
    rw [subTwoPi, if_pos h, hm]
    push_cast
    ring
  | case2 θ h =>
    refine ⟨0, ?_⟩
    rw [subTwoPi, if_neg h]
    push_cast
    ring

/-- `normalize_angle` lands in `[-π, π]`. -/
theorem normalize_angle_mem (θ : ℚ) :
    -PI32 ≤ normalize_angle θ ∧ normalize_angle θ ≤ PI32 :=
  ⟨subTwoPi_ge (addTwoPi θ) (addTwoPi_ge θ), subTwoPi_le (addTwoPi θ)⟩

/-- `normalize_angle` shifts its input by a whole number of turns. -/
theorem normalize_angle_shift (θ : ℚ) :
    ∃ m : ℤ, normalize_angle θ = θ + 2 * PI32 * m := by
  obtain ⟨a, ha⟩ := addTwoPi_shift θ
  obtain ⟨b, hb⟩ := subTwoPi_shift (addTwoPi θ)
  refine ⟨a + b, ?_⟩
  rw [normalize_angle, hb, ha]
  push_cast
  ring

/-- C9 counterexample: periodicity of `normalize_angle` fails at the boundary:
`normalize_angle (-π) = -π` but `normalize_angle (-π + 2π·1) = π ≠ -π`. -/
theorem C9_counterexample :
    normalize_angle (-PI32) = -PI32 ∧
    normalize_angle (-PI32 + 2 * PI32 * ((1 : ℤ) : ℚ)) = PI32 ∧
    (-PI32 : ℚ) ≠ PI32 := by
  refine ⟨?_, ?_, by norm_num [PI32]⟩
  · rw [normalize_angle, addTwoPi, if_neg (by norm_num), subTwoPi,
      if_neg (by norm_num [PI32])]
  · have h : -PI32 + 2 * PI32 * ((1 : ℤ) : ℚ) = PI32 := by push_cast; ring
    rw [h, normalize_angle, addTwoPi, if_neg (by norm_num [PI32]), subTwoPi,
      if_neg (by norm_num)]

/-- C9 (amended): `normalize_angle θ` always lies in `[-π, π]` and differs
from `θ` by an exact whole number of turns; for any integer `k`,
`normalize_angle (θ + 2πk)` equals `normalize_angle θ` *or* the two values are
the opposite boundary values `-π` / `π` (this boundary exception is exactly
what the counterexample exhibits, so full periodicity as claimed fails only
there); the three concrete evaluations of the claim hold. -/
theorem C9_normalize_amended :
    (∀ θ : ℚ, -PI32 ≤ normalize_angle θ ∧ normalize_angle θ ≤ PI32) ∧
    (∀ θ : ℚ, ∃ m : ℤ, normalize_angle θ = θ + 2 * PI32 * m) ∧
    (∀ (θ : ℚ) (k : ℤ),
      normalize_angle (θ + 2 * PI32 * k) = normalize_angle θ ∨
      (normalize_angle θ = -PI32 ∧ normalize_angle (θ + 2 * PI32 * k) = PI32) ∨
      (normalize_angle θ = PI32 ∧ normalize_angle (θ + 2 * PI32 * k) = -PI32)) ∧
    normalize_angle PI32 = PI32 ∧
    normalize_angle (2 * PI32) = 0 ∧
    normalize_angle (-PI32 - 1 / 10) = PI32 - 1 / 10 := by
  have hpi : (0 : ℚ) < PI32 := by norm_num [PI32]
  refine ⟨normalize_angle_mem, normalize_angle_shift, ?_, ?_, ?_, ?_⟩
  · intro θ k
    obtain ⟨a, ha⟩ := normalize_angle_shift θ
    obtain ⟨b, hb⟩ := normalize_angle_shift (θ + 2 * PI32 * k)
    obtain ⟨hu1, hu2⟩ := normalize_angle_mem θ
    obtain ⟨hv1, hv2⟩ := normalize_angle_mem (θ + 2 * PI32 * k)
    have hdiff : normalize_angle (θ + 2 * PI32 * k) - normalize_angle θ =
        2 * PI32 * ((k + b - a : ℤ) : ℚ) := by
      rw [ha, hb]
      push_cast
      ring
    have hboundlo : -(2 * PI32) ≤ 2 * PI32 * ((k + b - a : ℤ) : ℚ) := by
      rw [← hdiff]
      linarith
    have hboundhi : 2 * PI32 * ((k + b - a : ℤ) : ℚ) ≤ 2 * PI32 := by
      rw [← hdiff]
      linarith
    have hlo : (-1 : ℚ) ≤ ((k + b - a : ℤ) : ℚ) := by nlinarith [hpi, hboundlo]
    have hhi : ((k + b - a : ℤ) : ℚ) ≤ 1 := by nlinarith [hpi, hboundhi]
    have hloZ : (-1 : ℤ) ≤ k + b - a := by exact_mod_cast hlo
    have hhiZ : (k + b - a : ℤ) ≤ 1 := by exact_mod_cast hhi
    have hcases : k + b - a = -1 ∨ k + b - a = 0 ∨ k + b - a = 1 := by omega
    rcases hcases with hc | hc | hc
    · right; right
      rw [hc] at hdiff
      push_cast at hdiff
      constructor <;> linarith
    · left
      rw [hc] at hdiff
      push_cast at hdiff
      linarith
    · right; left
      rw [hc] at hdiff
      push_cast at hdiff
      constructor <;> linarith
  · rw [normalize_angle, addTwoPi, if_neg (by norm_num [PI32]), subTwoPi,
      if_neg (by norm_num)]
  · rw [normalize_angle, addTwoPi, if_neg (by norm_num [PI32]), subTwoPi,
      if_pos (by norm_num [PI32])]
    have h : 2 * PI32 - 2 * PI32 = 0 := by ring
    rw [h, subTwoPi, if_neg (by norm_num [PI32])]
  · rw [normalize_angle, addTwoPi, if_pos (by norm_num [PI32])]
    have h : -PI32 - 1 / 10 + 2 * PI32 = PI32 - 1 / 10 := by ring
    rw [h, addTwoPi, if_neg (by norm_num [PI32]), subTwoPi,
      if_neg (by norm_num [PI32])]

/-! ## C4: boundary safety of the motion step -/

/-- A point strictly inside the world always resolves to a grid location. -/
theorem loc_from_coords_isSome (x y W H : ℚ) (hW : 0 < W) (hH : 0 < H)
    (hx : 0 ≤ x) (hx2 : x < W) (hy : 0 ≤ y) (hy2 : y < H) :
    (GridLocation.loc_from_coords x y W H).isSome = true := by
  unfold GridLocation.loc_from_coords
  have hGH : (0 : ℚ) < (GRID_HEIGHT : ℚ) := by norm_num [GRID_HEIGHT]
  have hGW : (0 : ℚ) < (GRID_WIDTH : ℚ) := by norm_num [GRID_WIDTH]
  have hr0 : 0 ≤ (y / H) * (GRID_HEIGHT : ℚ) := by positivity
  have hr1 : (y / H) * (GRID_HEIGHT : ℚ) < (GRID_HEIGHT : ℚ) := by
    have hdiv : y / H < 1 := (div_lt_one hH).mpr hy2
    nlinarith
  have hc0 : 0 ≤ (x / W) * (GRID_WIDTH : ℚ) := by positivity
  have hc1 : (x / W) * (GRID_WIDTH : ℚ) < (GRID_WIDTH : ℚ) := by
    have hdiv : x / W < 1 := (div_lt_one hW).mpr hx2
    nlinarith
  rw [if_neg]
  · rfl
  · push_neg
    exact ⟨hr0, hr1, hc0, hc1⟩

/-- C4 counterexample: an ant with unit heading `(-3/5, -4/5)` starting near
the top-left corner crosses both the left and the top boundary in one step;
`walk_straight`'s `else if` chain corrects only the x axis, the center
resolves outside the grid, and `Ant::tick` hits the
"Ants should never walk off the world grid." panic (embedded as `none`). -/
theorem C4_counterexample :
    aC4.dir.1 ^ 2 + aC4.dir.2 ^ 2 = 1 ∧
    emptyGrid.get_grid_location aC4.rect.center.1 aC4.rect.center.2 =
      some (⟨1, 1⟩ : GridLocation) ∧
    Ant.tick aC4 emptyGrid 1 (0, 0) 0 true = none := by
  refine ⟨?_, by with_unfolding_all decide, by with_unfolding_all decide⟩
  show ((-3 : ℚ) / 5) ^ 2 + ((-4 : ℚ) / 5) ^ 2 = 1
  norm_num

/-- C4 (amended): after a `walk_straight` motion step that violates the
boundary conditions on at most one axis (so in particular after any step that
stays inside, or bounces off a single wall), the ant's center resolves to a
grid location inside the world: the panic is unreachable *except* on
double-boundary (corner) crossings, where only the x axis is corrected and the
center can leave the world (see the counterexample). -/
theorem C4_boundary_amended (box : RectQ) (a : Ant) (dt : ℚ)
    (hx0 : box.x = 0) (hy0 : box.y = 0) (hW : 0 < box.w) (hH : 0 < box.h)
    (hw : 0 < a.rect.w) (hwW : a.rect.w ≤ box.w)
    (hh : 0 < a.rect.h) (hhH : a.rect.h ≤ box.h)
    (hcorner : ¬ ((a.movedX dt < box.x ∨ box.w < a.movedX dt + a.rect.w) ∧
                  (a.movedY dt < box.y ∨ box.h < a.movedY dt + a.rect.h))) :
    (GridLocation.loc_from_coords ((a.walk_straight box dt).rect.center.1)
      ((a.walk_straight box dt).rect.center.2) box.w box.h).isSome = true := by
  have hbounds :
      0 ≤ (a.walk_straight box dt).rect.center.1 ∧
      (a.walk_straight box dt).rect.center.1 < box.w ∧
      0 ≤ (a.walk_straight box dt).rect.center.2 ∧
      (a.walk_straight box dt).rect.center.2 < box.h := by
    simp only [Ant.movedX, Ant.movedY] at hcorner
    simp only [Ant.walk_straight]
    split_ifs with h1 h2 h3 h4
    · have hnb : ¬ (a.rect.y + a.dir.2 * a.move_speed * dt < box.y ∨
          box.h < a.rect.y + a.dir.2 * a.move_speed * dt + a.rect.h) :=
        fun hb => hcorner ⟨Or.inl h1, hb⟩
      push_neg at hnb
      obtain ⟨hy1, hy2⟩ := hnb
      simp only [RectQ.center]
      refine ⟨by linarith, by linarith, by linarith, by linarith⟩
    · have hnb : ¬ (a.rect.y + a.dir.2 * a.move_speed * dt < box.y ∨
          box.h < a.rect.y + a.dir.2 * a.move_speed * dt + a.rect.h) :=
        fun hb => hcorner ⟨Or.inr h2, hb⟩
      push_neg at hnb
      obtain ⟨hy1, hy2⟩ := hnb
      simp only [RectQ.center]
      refine ⟨by linarith, by linarith, by linarith, by linarith⟩
    · simp only [RectQ.center]
      push_neg at h1 h2
      refine ⟨by linarith, by linarith, by linarith, by linarith⟩
    · simp only [RectQ.center]
      push_neg at h1 h2 h3
      refine ⟨by linarith, by linarith, by linarith, by linarith⟩
    · simp only [RectQ.center]
      push_neg at h1 h2 h3 h4
      refine ⟨by linarith, by linarith, by linarith, by linarith⟩
  exact loc_from_coords_isSome _ _ box.w box.h hW hH hbounds.1 hbounds.2.1
    hbounds.2.2.1 hbounds.2.2.2

/-- C4 witness: a plain in-bounds step of the witness ant resolves to a valid
grid location. -/
theorem C4_witness :
    (GridLocation.loc_from_coords
      ((aW4.walk_straight emptyGrid.bounding_box 1).rect.center.1)
      ((aW4.walk_straight emptyGrid.bounding_box 1).rect.center.2)
      emptyGrid.bounding_box.w emptyGrid.bounding_box.h).isSome = true :=
  C4_boundary_amended emptyGrid.bounding_box aW4 1 rfl rfl
    (by with_unfolding_all decide) (by with_unfolding_all decide)
    (by with_unfolding_all decide) (by with_unfolding_all decide)
    (by with_unfolding_all decide) (by with_unfolding_all decide)
    (by with_unfolding_all decide)

/-! ## C5: terrain collision resolution -/

/-- `walk_straight` never changes the behavioral state. -/
theorem Ant.walk_straight_state (a : Ant) (box : RectQ) (dt : ℚ) :
    (a.walk_straight box dt).state = a.state := by
  simp only [Ant.walk_straight]
  split_ifs <;> rfl

/-- `bounce_off` never changes the behavioral state. -/
theorem Ant.bounce_off_state (a : Ant) (coin : Bool) :
    (a.bounce_off coin).state = a.state := by
  simp only [Ant.bounce_off]
  split_ifs <;> rfl

/-- `bounce_off` never changes the position. -/
theorem Ant.bounce_off_rect (a : Ant) (coin : Bool) :
    (a.bounce_off coin).rect = a.rect := by
  simp only [Ant.bounce_off]
  split_ifs <;> rfl

/-- The pre-walk bookkeeping never changes the behavioral state. -/
theorem Ant.pre_walk_state (a : Ant) (dt : ℚ) (cd : ℚ × ℚ) :
    (a.pre_walk dt cd).state = a.state := by
  simp only [Ant.pre_walk]
  split_ifs <;> rfl

/-- The walk phase of `Ant::tick` never changes the behavioral state. -/
theorem Ant.moved_state (a : Ant) (g : WorldGrid) (dt : ℚ) (cd : ℚ × ℚ) (dist : ℚ) :
    (a.moved g dt cd dist).state = a.state := by
  show (a.walk_to_pheromones g.bounding_box dt cd).state = a.state
  unfold Ant.walk_to_pheromones
  rw [Ant.walk_straight_state, Ant.pre_walk_state]

/-- The `walk_straight` result depends only on the rectangle, heading and
speed of the ant, as far as its rectangle is concerned. -/
theorem Ant.walk_straight_rect_congr (a b : Ant) (box : RectQ) (dt : ℚ)
    (hr : a.rect = b.rect) (hd : a.dir = b.dir) (hs : a.move_speed = b.move_speed) :
    (a.walk_straight box dt).rect = (b.walk_straight box dt).rect := by
  simp only [Ant.walk_straight, hr, hd, hs]
  split_ifs <;> rfl

/-- Same-dir invariance for `walk_straight`. -/
theorem Ant.walk_straight_dir_congr (a b : Ant) (box : RectQ) (dt : ℚ)
    (hr : a.rect = b.rect) (hd : a.dir = b.dir) (hs : a.move_speed = b.move_speed) :
    (a.walk_straight box dt).dir = (b.walk_straight box dt).dir := by
  simp only [Ant.walk_straight, hr, hd, hs]
  split_ifs <;> rfl

/-- If a `walk_straight` step triggers no boundary clamp in either direction,
re-running it with negated `dt` restores the exact prior rectangle. -/
theorem Ant.walk_straight_roundtrip (box : RectQ) (dt : ℚ) (b : Ant)
    (h1 : ¬ (b.movedX dt < box.x)) (h2 : ¬ (box.w < b.movedX dt + b.rect.w))
    (h3 : ¬ (b.movedY dt < box.y)) (h4 : ¬ (box.h < b.movedY dt + b.rect.h))
    (h5 : ¬ (b.rect.x < box.x)) (h6 : ¬ (box.w < b.rect.x + b.rect.w))
    (h7 : ¬ (b.rect.y < box.y)) (h8 : ¬ (box.h < b.rect.y + b.rect.h)) :
    ((b.walk_straight box dt).walk_straight box (-dt)).rect = b.rect := by
  simp only [Ant.movedX, Ant.movedY] at h1 h2 h3 h4
  have hw : b.walk_straight box dt =
      { b with rect := { b.rect with
          x := b.rect.x + b.dir.1 * b.move_speed * dt
          y := b.rect.y + b.dir.2 * b.move_speed * dt } } := by
    simp only [Ant.walk_straight]
    rw [if_neg h1, if_neg h2, if_neg h3, if_neg h4]
  rw [hw]
  simp only [Ant.walk_straight]
  have hxeq : b.rect.x + b.dir.1 * b.move_speed * dt + b.dir.1 * b.move_speed * -dt =
      b.rect.x := by ring
  have hyeq : b.rect.y + b.dir.2 * b.move_speed * dt + b.dir.2 * b.move_speed * -dt =
      b.rect.y := by ring
  rw [hxeq, hyeq, if_neg h5, if_neg h6, if_neg h7, if_neg h8]

/-- C5 counterexample: an ant that reflects off the left wall during the
forward step and lands on terrain is *not* restored to its pre-move position
by the negated-`dt` re-run: it started at x = 5 and ends the `HitTerrain` tick
at x = 0 (the forward clamp changed the heading, so the undo walks the wrong
way and clamps again). -/
theorem C5_counterexample :
    (Ant.tick aC5 gC5 (1 / 10) (0, 0) 0 true).map
        (fun res => (res.1.rect.x, res.2.2.1, res.2.2.2)) =
      some (0, none, some AntActionTaken.HitTerrain) ∧
    aC5.rect.x = 5 ∧ (0 : ℚ) ≠ 5 := by
  refine ⟨by with_unfolding_all decide, rfl, by norm_num⟩

/-- C5 (amended): when the destination cell after motion integration is
Terrain, `Ant::tick` returns immediately with action `HitTerrain`, no emitted
pheromone, unchanged behavioral state, and an ant equal to the undo-and-bounce
of the moved ant; the undo (re-running the motion integration with negated
`dt`) restores the position *exactly* provided the forward step triggered no
boundary clamp and the starting rectangle lies within the world (if the
forward step clamped at a wall, the restoration can fail — see the
counterexample); and the bounce heading is always one of the two mirror
reflections of the current heading. -/
theorem C5_terrain_amended (g : WorldGrid) (dt dist : ℚ) (cd : ℚ × ℚ) (coin : Bool)
    (a : Ant) (L : GridLocation)
    (hres : g.get_grid_location ((a.moved g dt cd dist).rect.center.1)
      ((a.moved g dt cd dist).rect.center.2) = some L)
    (hterr : g.grid L = CellType.Terrain) :
    (∀ (a' : Ant) (l : GridLocation) (ph : Option Pheromone) (act : Option AntActionTaken),
      a.tick g dt cd dist coin = some (a', l, ph, act) →
      ph = none ∧ act = some AntActionTaken.HitTerrain ∧ a'.state = a.state ∧
      a' = ((a.moved g dt cd dist).walk_straight g.bounding_box (-dt)).bounce_off coin) ∧
    (¬ ((a.pre_walk dt cd).movedX dt < g.bounding_box.x) →
     ¬ (g.bounding_box.w < (a.pre_walk dt cd).movedX dt + a.rect.w) →
     ¬ ((a.pre_walk dt cd).movedY dt < g.bounding_box.y) →
     ¬ (g.bounding_box.h < (a.pre_walk dt cd).movedY dt + a.rect.h) →
     ¬ (a.rect.x < g.bounding_box.x) → ¬ (g.bounding_box.w < a.rect.x + a.rect.w) →
     ¬ (a.rect.y < g.bounding_box.y) → ¬ (g.bounding_box.h < a.rect.y + a.rect.h) →
     ((a.moved g dt cd dist).walk_straight g.bounding_box (-dt)).rect = a.rect) ∧
    (∀ (b : Bool) (a0 : Ant),
      (a0.bounce_off b).dir = (a0.dir.1, -a0.dir.2) ∨
      (a0.bounce_off b).dir = (-a0.dir.1, a0.dir.2)) := by
  refine ⟨?_, ?_, ?_⟩
  · intro a' l ph act htick
    have htick' : Ant.tick a g dt cd dist coin =
        (match g.get_grid_location
            (((a.moved g dt cd dist).walk_straight g.bounding_box (-dt)).bounce_off
              coin).rect.center.1
            (((a.moved g dt cd dist).walk_straight g.bounding_box (-dt)).bounce_off
              coin).rect.center.2 with
        | none => none
        | some loc =>
          some ((((a.moved g dt cd dist).walk_straight g.bounding_box (-dt)).bounce_off coin),
            loc, none, some AntActionTaken.HitTerrain)) := by
      unfold Ant.tick
      dsimp only
      rw [hres]
      dsimp only
      rw [hterr]
    rw [htick'] at htick
    rcases hloc3 : g.get_grid_location
        (((a.moved g dt cd dist).walk_straight g.bounding_box (-dt)).bounce_off
          coin).rect.center.1
        (((a.moved g dt cd dist).walk_straight g.bounding_box (-dt)).bounce_off
          coin).rect.center.2 with _ | loc3
    · rw [hloc3] at htick
      exact Option.noConfusion htick
    · rw [hloc3] at htick
      have h := Option.some.inj htick
      simp only [Prod.mk.injEq] at h
      obtain ⟨ha', hl, hph, hact⟩ := h
      refine ⟨hph.symm, hact.symm, ?_, ha'.symm⟩
      rw [← ha', Ant.bounce_off_state, Ant.walk_straight_state, Ant.moved_state]
  · intro h1 h2 h3 h4 h5 h6 h7 h8
    have hrect : (a.pre_walk dt cd).rect = a.rect := by
      simp only [Ant.pre_walk]
      split_ifs <;> rfl
    have hspeed : (a.pre_walk dt cd).move_speed = a.move_speed := by
      simp only [Ant.pre_walk]
      split_ifs <;> rfl
    rw [← hrect] at h2 h4 h5 h6 h7 h8
    have hcongr : ((a.moved g dt cd dist).walk_straight g.bounding_box (-dt)).rect =
        (((a.pre_walk dt cd).walk_straight g.bounding_box dt).walk_straight
          g.bounding_box (-dt)).rect := by
      apply Ant.walk_straight_rect_congr
      · rfl
      · rfl
      · rfl
    rw [hcongr,
      Ant.walk_straight_roundtrip g.bounding_box dt (a.pre_walk dt cd) h1 h2 h3 h4 h5 h6 h7 h8,
      hrect]
  · intro b a0
    simp only [Ant.bounce_off]
    split_ifs
    · exact Or.inl rfl
    · exact Or.inr rfl

/-- C5 witness: an ant that walks onto terrain without touching any wall is
restored exactly to its pre-move rectangle by the negated-`dt` undo. -/
theorem C5_witness :
    ((aW5.moved gW5 (1 / 10) (0, 0) 0).walk_straight gW5.bounding_box (-(1 / 10))).rect =
      aW5.rect :=
  (C5_terrain_amended gW5 (1 / 10) 0 (0, 0) false aW5 ⟨76, 28⟩
      (by with_unfolding_all decide) (by with_unfolding_all decide)).2.1
    (by with_unfolding_all decide) (by with_unfolding_all decide)
    (by with_unfolding_all decide) (by with_unfolding_all decide)
    (by with_unfolding_all decide) (by with_unfolding_all decide)
    (by with_unfolding_all decide) (by with_unfolding_all decide)

/-! ## C3: ray cast -/

/-- C3 evaluation at the failing input (800×600 world, 4×4 cells, origin cell
(75, 100) with center (402, 302), direction `(1, 0)`, requested ray length 40
pixels): the source computes `step = min(cell_h, cell_w)/2 - ε ≈ 2` and runs
`ceil(40/step) - 1 = 20` iterations, but advances the sample point by the
*unit* angle vector each iteration, so the walk only covers ~20 px.  The
farthest returned cell is column 105; the cell (75, 110) — which lies 40 px
along the ray, inside the world and free of terrain, and which stepping in
half-cell increments up to the requested length would visit — is *not*
returned.  The origin cell (75, 100) is excluded, as specified. -/
theorem C3_ray_length_eval :
    (emptyGrid.get_cells_in_direction rectC (1, 0) 40).isSome = true ∧
    (⟨75, 105⟩ : GridLocation) ∈ S3 ∧
    (⟨75, 110⟩ : GridLocation) ∉ S3 ∧
    (⟨75, 100⟩ : GridLocation) ∉ S3 ∧
    GridLocation.loc_from_coords (402 + 40) 302 800 600 = some (⟨75, 110⟩ : GridLocation) ∧
    emptyGrid.grid ⟨75, 110⟩ ≠ CellType.Terrain := by
  refine ⟨?_, ?_, ?_, ?_, ?_, ?_⟩ <;> with_unfolding_all decide
